import Mathlib

/-!
Verification of the studysend RAG core against its specification.

This file shallowly embeds the parts of the Python sources that the
specification's claims are about:

* `document_processor.py` — `DocumentProcessor.chunk_text` (the chunker),
  together with the Python string primitives it relies on (`str.rfind`,
  slicing, `str.strip`), modelled over `List Char` with Python's
  index-normalization semantics.
* `redis_service.py` — the embedding / similarity-search caches and
  `invalidate_course_cache`.
* `vector_store.py` — `generate_embeddings`, `add_document_chunks`,
  `search_similar_chunks`, the count helpers and `delete_document_chunks`.
* `chat_service.py` — `get_relevant_context`'s two-tier score filter.
* `background_processor.py` — `_process_document` and the consumer loop.

Conventions: Python `int` is `Int`; Python `float` similarity scores are
modelled as `ℚ` (they are only ever compared, never rounded, in the code
under study); exceptions become `Option`/`Bool` results; external
collaborators (the OpenAI embedding endpoint, the pgvector distance
operator, the database commit and the Redis connection) are injected as
explicit function parameters and success flags.  The `while` loop of
`chunk_text` is embedded with explicit fuel: `none` means the loop has not
finished within the given fuel, and theorems below show for which
parameters the fuel `len(text) + 1` always suffices, resp. that no amount
of fuel ever suffices.
-/

namespace StudysendRAG

/-! ## Python string primitives used by `chunk_text` -/

/-- Python slice-index normalization: a negative index counts from the end
of the string and is clamped at 0, a too-large index is clamped at the
length.  This is the normalization `str.rfind` and slicing apply to their
`start`/`end` arguments. -/
def pyIdx (n : Nat) (i : Int) : Nat :=
  if i < 0 then ((n : Int) + i).toNat else min i.toNat n

/-- Python slice `s[a:b]`. -/
def pySlice (s : List Char) (a b : Int) : List Char :=
  (s.take (pyIdx s.length b)).drop (pyIdx s.length a)

/-- The candidate indices scanned by `s.rfind('.', a, b)`: positions of
`'.'` inside the normalized range `[a, b)`, in increasing order. -/
def dotPositions (s : List Char) (a b : Int) : List Nat :=
  (List.range s.length).filter
    (fun j => decide (pyIdx s.length a ≤ j) && decide (j < pyIdx s.length b)
      && (s.getD j ' ' == '.'))

/-- Python `s.rfind('.', a, b)`: the largest absolute index `j` with
`a ≤ j < b` (after slice normalization) such that `s[j] = '.'`, or `-1`
when there is none. -/
def pyRfindDot (s : List Char) (a b : Int) : Int :=
  match (dotPositions s a b).getLast? with
  | some j => (j : Int)
  | none => -1

/-- The ASCII whitespace characters removed by Python's `str.strip()`. -/
def pyIsSpace (c : Char) : Bool :=
  c == ' ' || c == '\t' || c == '\n' || c == '\r' || c == '\x0b' || c == '\x0c'

/-- Python `s.strip()`. -/
def pyStrip (s : List Char) : List Char :=
  ((s.dropWhile pyIsSpace).reverse.dropWhile pyIsSpace).reverse

/-! ## The chunker: `DocumentProcessor.chunk_text`

```
if len(text) <= chunk_size: return [text]
chunks = []; start = 0
while start < len(text):
    end = start + chunk_size
    if end < len(text):
        sentence_end = text.rfind('.', start, end)
        if sentence_end > start + chunk_size - 100:
            end = sentence_end + 1
    chunk = text[start:end].strip()
    if chunk: chunks.append(chunk)
    start = end - overlap
return chunks
```
-/

/-- The window end one iteration of `chunk_text`'s loop computes for the
window starting at `start` (the `end` variable after the optional
sentence-boundary cut). -/
def chunkEnd (text : List Char) (chunkSize start : Int) : Int :=
  if start + chunkSize < (text.length : Int) then
    if pyRfindDot text start (start + chunkSize) > start + chunkSize - 100 then
      pyRfindDot text start (start + chunkSize) + 1
    else start + chunkSize
  else start + chunkSize

/-- The value of `start` after one iteration of `chunk_text`'s loop
(`start = end - overlap`). -/
def chunkNextStart (text : List Char) (chunkSize overlap start : Int) : Int :=
  chunkEnd text chunkSize start - overlap

/-- The `while start < len(text)` loop of `chunk_text`, with explicit
fuel; `none` means the loop has not terminated within `fuel` iterations. -/
def chunkLoop (text : List Char) (chunkSize overlap : Int) :
    Int → List (List Char) → Nat → Option (List (List Char))
  | _, _, 0 => none
  | start, acc, fuel + 1 =>
    if start < (text.length : Int) then
      let e := chunkEnd text chunkSize start
      let c := pyStrip (pySlice text start e)
      chunkLoop text chunkSize overlap (e - overlap) (if c.isEmpty then acc else acc ++ [c]) fuel
    else
      some acc

/-- `DocumentProcessor.chunk_text(text, chunk_size, overlap)`.  The
defaults in the source are `chunk_size=600`, `overlap=150`.  There is no
validation of `overlap` against `chunk_size` anywhere in the function. -/
def chunkTextFuel (text : List Char) (chunkSize overlap : Int) (fuel : Nat) :
    Option (List (List Char)) :=
  if (text.length : Int) ≤ chunkSize then some [text]
  else chunkLoop text chunkSize overlap 0 [] fuel

/-! ## Data model of the similarity index, its caches and the scheduler -/

/-- A persisted `document_chunks` row (`models.DocumentChunk`), as written
by `VectorStore.add_document_chunks`.  Embedding vectors are `List ℚ`
(the code only ever stores and compares them). -/
structure ChunkRow where
  post_id : Int
  course_id : Int
  doc_name : String
  post_name : String
  chunk_text : String
  chunk_index : Int
  total_chunks : Int
  page_number : Option Int
  embedding : List ℚ
  deriving DecidableEq, Repr

/-- The per-chunk metadata dict passed to `add_document_chunks`.
`subject` renders `metadata.get('subject', '')` (a missing key is the
empty string) and `page_number` renders `metadata.get('page_number')`
(a missing key is `none`). -/
structure ChunkMeta where
  post_id : Int
  course_id : Int
  doc_name : String
  post_name : String
  subject : String
  page_number : Option Int
  chunk_index : Int
  total_chunks : Int
  deriving DecidableEq, Repr

/-- One formatted result dict of `search_similar_chunks` (content,
metadata fields, similarity score). -/
structure SearchHit where
  content : String
  post_id : Int
  course_id : Int
  doc_name : String
  post_name : String
  chunk_index : Int
  total_chunks : Int
  page_number : Option Int
  similarity_score : ℚ
  deriving DecidableEq, Repr

/-- A `document_summaries` row (`models.DocumentSummary`). -/
structure SummaryRow where
  post_id : Int
  course_id : Int
  doc_name : String
  post_name : String
  summary : String
  deriving DecidableEq, Repr

/-- Key of a cached similarity search, `search:{query_hash}:{cache_id}`
with `query_hash = md5(f"{enhanced_query}:{n_results}")`.  The md5
fingerprint is modelled by the fingerprinted data itself (a deterministic
content fingerprint), so the key is the triple
`(enhanced query, n_results, cache id)`. -/
abbrev SearchKey := String × Nat × Int

/-- The Redis cache state (`redis_service.py`).  `enabled = false` models
an unavailable Redis: every get misses and every set/delete is dropped.
Entries are modelled as present until deleted; TTL expiry is an external
deletion, not modelled (cache claims are about behavior within the TTL).
The embedding-cache key `embedding:{md5(text)}` is modelled by the text
itself.  The `course:{id}`/`course_docs:{id}` caches are not modelled: no
operation under study reads them. -/
structure RedisState where
  enabled : Bool
  embCache : List (String × List ℚ)
  searchCache : List (SearchKey × List SearchHit)
  deriving DecidableEq, Repr

/-- Python truthiness of an optional `int` (`None` and `0` are falsy). -/
def pyTruthyInt : Option Int → Bool
  | some n => n != 0
  | none => false

/-- Python truthiness of an optional `str` (`None` and `""` are falsy). -/
def pyTruthyStr : Option String → Bool
  | some s => s != ""
  | none => false

/-! ## `redis_service.py` -/

/-- `RedisService.get_cached_embedding` (a stored value is always a list
here, so the `isinstance(result, list)` guard always passes). -/
def getCachedEmbedding (st : RedisState) (text : String) : Option (List ℚ) :=
  if st.enabled then st.embCache.lookup text else none

/-- `RedisService.cache_embedding`; an overwrite is modelled by shadowing
the older entry. -/
def cacheEmbedding (st : RedisState) (text : String) (v : List ℚ) : RedisState :=
  if st.enabled then { st with embCache := (text, v) :: st.embCache } else st

/-- `RedisService.get_cached_similarity_search`. -/
def getCachedSimilaritySearch (st : RedisState) (key : SearchKey) :
    Option (List SearchHit) :=
  if st.enabled then st.searchCache.lookup key else none

/-- `RedisService.cache_similarity_search`. -/
def cacheSimilaritySearch (st : RedisState) (key : SearchKey)
    (results : List SearchHit) : RedisState :=
  if st.enabled then { st with searchCache := (key, results) :: st.searchCache } else st

/-- `RedisService.invalidate_course_cache`: `delete_pattern` over
`course:{id}`, `course_docs:{id}` and `search:*:{id}`.  On the modelled
search cache this deletes exactly the entries whose cache id equals
`course_id` (query hashes are hex digests without `:`, so `*` cannot
swallow a key separator).  `delete_pattern` swallows every Redis error, so
invalidation itself never raises. -/
def invalidateCourseCache (st : RedisState) (courseId : Int) : RedisState :=
  if st.enabled then
    { st with searchCache := st.searchCache.filter (fun e => e.1.2.2 != courseId) }
  else st

/-! ## `vector_store.py` -/

/-- Python `s.replace(pat, rep)` (left-to-right, non-overlapping), over
`List Char` with explicit fuel; one character is consumed per step, so
fuel `s.length` is exact. -/
def listReplaceFuel (pat rep : List Char) : Nat → List Char → List Char
  | 0, s => s
  | _ + 1, [] => []
  | fuel + 1, c :: rest =>
    if pat.isPrefixOf (c :: rest) ∧ pat ≠ [] then
      rep ++ listReplaceFuel pat rep fuel ((c :: rest).drop pat.length)
    else c :: listReplaceFuel pat rep fuel rest

/-- Python `s.replace(pat, rep)` on strings. -/
def strReplace (s pat rep : String) : String :=
  String.mk (listReplaceFuel pat.toList rep.toList s.toList.length s.toList)

/-- `VectorStore.enhance_chunk_for_embedding`: prefix the chunk with
`Subject:`/`Topic:`/`Page:` context lines.  The topic is the document
name with `.pdf`, `_` and `-` rewritten (`replace` of the empty string is
the empty string, so the `if doc_name:` guard in the source is
redundant and elided).  A page number of `0` is falsy in Python and
produces no `Page:` line. -/
def enhanceChunkForEmbedding (chunk : String) (m : ChunkMeta) : String :=
  String.intercalate "\n"
    ((if m.subject ≠ "" then ["Subject: " ++ m.subject] else []) ++
     (if strReplace (strReplace (strReplace m.doc_name ".pdf" "") "_" " ") "-" " " ≠ "" then
        ["Topic: " ++ strReplace (strReplace (strReplace m.doc_name ".pdf" "") "_" " ") "-" " "]
      else []) ++
     (match m.page_number with
      | some p => if p ≠ 0 then ["Page: " ++ toString p] else []
      | none => []) ++
     ["Content: " ++ chunk])

/-- `VectorStore.enhance_query_for_search`. -/
def enhanceQueryForSearch (query : String) (subject topic : Option String) : String :=
  String.intercalate "\n"
    ((if pyTruthyStr subject then ["Subject: " ++ subject.getD ""] else []) ++
     (if pyTruthyStr topic then ["Topic: " ++ topic.getD ""] else []) ++
     ["Content: " ++ query])

/-- One per-text cache check of `generate_embeddings`:
`get_cached_embedding` followed by Python truthiness
(`if cached_embedding:`), so an empty cached list counts as a miss. -/
def embCacheHit (st : RedisState) (text : String) : Option (List ℚ) :=
  match getCachedEmbedding st text with
  | some v => if v.isEmpty then none else some v
  | none => none

/-- `VectorStore.generate_embeddings`.  `provider` is the OpenAI
`embeddings.create` endpoint, modelled as a deterministic per-text
function (the batch call returns one vector per input in order, so the
source's `gen_index` gather/scatter is rendered as a per-position choice
between the cache hit and the provider's vector).  `providerOk = false`
makes the external call raise; the exception is re-raised (`none`) and
nothing is cached.  Returns the embeddings, the Redis state after the
call, and the number of external provider calls issued (0 or 1). -/
def genEmbeddings (provider : String → List ℚ) (providerOk : Bool)
    (st : RedisState) (texts : List String) :
    Option (List (List ℚ)) × RedisState × Nat :=
  if texts.all (fun t => (embCacheHit st t).isSome) then
    (some (texts.map (fun t => (embCacheHit st t).getD [])), st, 0)
  else if providerOk then
    (some (texts.map (fun t => (embCacheHit st t).getD (provider t))),
     (texts.filter (fun t => (embCacheHit st t).isNone)).foldl
       (fun s t => cacheEmbedding s t (provider t)) st,
     1)
  else (none, st, 1)

/-- `VectorStore.add_document_chunks`: enhance each chunk with its
metadata, embed the batch, build the rows, `add_all` + one `commit`.
`commitOk = false` makes the commit raise (a row-level persistence
failure).  Any exception lands in the `except` branch: `db.rollback()`
and `return False`, leaving the persisted rows unchanged. -/
def addDocumentChunks (provider : String → List ℚ) (providerOk commitOk : Bool)
    (st : RedisState) (db : List ChunkRow)
    (chunks : List String) (metas : List ChunkMeta) :
    Bool × List ChunkRow × RedisState :=
  match genEmbeddings provider providerOk st
      ((chunks.zip metas).map (fun cm => enhanceChunkForEmbedding cm.1 cm.2)) with
  | (none, st', _) => (false, db, st')
  | (some embs, st', _) =>
    if commitOk then
      (true,
       db ++ ((chunks.zip metas).zip embs).map (fun cme =>
         { post_id := cme.1.2.post_id, course_id := cme.1.2.course_id,
           doc_name := cme.1.2.doc_name, post_name := cme.1.2.post_name,
           chunk_text := cme.1.1, chunk_index := cme.1.2.chunk_index,
           total_chunks := cme.1.2.total_chunks, page_number := cme.1.2.page_number,
           embedding := cme.2 : ChunkRow }),
       st')
    else (false, db, st')

/-- The cache id `search_similar_chunks` derives:
`post_id if post_id else (course_id or 0)` (Python truthiness). -/
def searchCacheId (course_id post_id : Option Int) : Int :=
  if pyTruthyInt post_id then post_id.getD 0
  else if pyTruthyInt course_id then course_id.getD 0
  else 0

/-- The query text `search_similar_chunks` embeds: enhanced with
subject/topic when either is truthily present (`if subject or topic:`). -/
def searchQueryText (query : String) (subject topic : Option String) : String :=
  if pyTruthyStr subject || pyTruthyStr topic then enhanceQueryForSearch query subject topic
  else query

/-- The rows the SQL query returns: scope filter (`WHERE post_id = ...`
when `post_id` is truthy, else `WHERE course_id = ...` when truthy, else
no filter), `ORDER BY` ascending pgvector distance to the query
embedding, `LIMIT n_results`.  `dist` abstracts the pgvector `<=>`
operator. -/
def searchRows (dist : List ℚ → List ℚ → ℚ) (db : List ChunkRow)
    (course_id post_id : Option Int) (n_results : Nat) (qv : List ℚ) :
    List ChunkRow :=
  ((if pyTruthyInt post_id then db.filter (fun r => r.post_id == post_id.getD 0)
    else if pyTruthyInt course_id then db.filter (fun r => r.course_id == course_id.getD 0)
    else db).mergeSort
      (fun a b => decide (dist a.embedding qv ≤ dist b.embedding qv))).take n_results

/-- The formatted results of a similarity search:
`similarity_score = 1 - (embedding <=> query_embedding)`. -/
def searchResultsOf (dist : List ℚ → List ℚ → ℚ) (db : List ChunkRow)
    (course_id post_id : Option Int) (n_results : Nat) (qv : List ℚ) :
    List SearchHit :=
  (searchRows dist db course_id post_id n_results qv).map (fun r =>
    { content := r.chunk_text, post_id := r.post_id, course_id := r.course_id,
      doc_name := r.doc_name, post_name := r.post_name,
      chunk_index := r.chunk_index, total_chunks := r.total_chunks,
      page_number := r.page_number,
      similarity_score := 1 - dist r.embedding qv : SearchHit })

/-- The body of `search_similar_chunks` after the cache check: one
`try/except` around query embedding, SQL query and result caching; any
exception is caught, logged and `[]` is returned (`dbOk = false` makes
the SQL query raise). -/
def searchUncachedRun (provider : String → List ℚ) (dist : List ℚ → List ℚ → ℚ)
    (providerOk dbOk : Bool) (st : RedisState) (db : List ChunkRow)
    (eText : String) (key : SearchKey) (course_id post_id : Option Int)
    (n_results : Nat) : List SearchHit × RedisState :=
  match genEmbeddings provider providerOk st [eText] with
  | (none, st', _) => ([], st')
  | (some qEmbs, st', _) =>
    if dbOk then
      (searchResultsOf dist db course_id post_id n_results (qEmbs.headD []),
       cacheSimilaritySearch st' key
         (searchResultsOf dist db course_id post_id n_results (qEmbs.headD [])))
    else ([], st')

/-- Whether the cached entry for `key` is a truthy hit
(`if cached_results:` — a cached empty list is treated as a miss). -/
def truthySearchHit (st : RedisState) (key : SearchKey) : Bool :=
  match getCachedSimilaritySearch st key with
  | some r => !r.isEmpty
  | none => false

/-- `VectorStore.search_similar_chunks`. -/
def searchSimilarChunks (provider : String → List ℚ) (dist : List ℚ → List ℚ → ℚ)
    (providerOk dbOk : Bool) (st : RedisState) (db : List ChunkRow)
    (query : String) (course_id post_id : Option Int) (n_results : Nat)
    (subject topic : Option String) : List SearchHit × RedisState :=
  match getCachedSimilaritySearch st
      (searchQueryText query subject topic, n_results, searchCacheId course_id post_id) with
  | some cached =>
    if cached.isEmpty then
      searchUncachedRun provider dist providerOk dbOk st db
        (searchQueryText query subject topic)
        (searchQueryText query subject topic, n_results, searchCacheId course_id post_id)
        course_id post_id n_results
    else (cached, st)
  | none =>
    searchUncachedRun provider dist providerOk dbOk st db
      (searchQueryText query subject topic)
      (searchQueryText query subject topic, n_results, searchCacheId course_id post_id)
      course_id post_id n_results

/-- `VectorStore.get_course_document_count`: the scoped row count, with a
catch-all that returns `0` on any store failure (`queryOk = false`). -/
def getCourseDocumentCount (db : List ChunkRow) (queryOk : Bool) (course_id : Int) : Int :=
  if queryOk then ((db.filter (fun r => r.course_id == course_id)).length : Int) else 0

/-- `VectorStore.get_post_document_count`, same failure policy. -/
def getPostDocumentCount (db : List ChunkRow) (queryOk : Bool) (post_id : Int) : Int :=
  if queryOk then ((db.filter (fun r => r.post_id == post_id)).length : Int) else 0

/-- `VectorStore.get_total_chunks_count`, same failure policy. -/
def getTotalChunksCount (db : List ChunkRow) (queryOk : Bool) : Int :=
  if queryOk then (db.length : Int) else 0

/-- `VectorStore.delete_document_chunks`: delete all rows of a post in
one transaction; rollback and `False` on failure. -/
def deleteDocumentChunks (db : List ChunkRow) (commitOk : Bool) (post_id : Int) :
    Bool × List ChunkRow :=
  if commitOk then (true, db.filter (fun r => r.post_id != post_id)) else (false, db)

/-- Update of the first `DocumentSummary` row matching `post_id`
(`.first()` in the source; `course_id` is not updated on an existing
row). -/
def updateSummaryRow (pid : Int) (doc_name post_name summary : String) :
    List SummaryRow → List SummaryRow
  | [] => []
  | s :: rest =>
    if s.post_id == pid then
      { s with doc_name := doc_name, post_name := post_name, summary := summary } :: rest
    else s :: updateSummaryRow pid doc_name post_name summary rest

/-- `VectorStore.store_document_summary`: upsert by `post_id`; rollback
and `False` on a commit failure. -/
def storeDocumentSummary (sums : List SummaryRow) (commitOk : Bool)
    (post_id course_id : Int) (doc_name post_name summary : String) :
    Bool × List SummaryRow :=
  if commitOk then
    if sums.any (fun s => s.post_id == post_id) then
      (true, updateSummaryRow post_id doc_name post_name summary sums)
    else
      (true, sums ++ [SummaryRow.mk post_id course_id doc_name post_name summary])
  else (false, sums)

/-! ## `chat_service.py`: the two-tier relevance filter -/

/-- A scored candidate as consumed by `ChatService.get_relevant_context`
(one result dict; `chunk not in filtered_results` is dict equality). -/
structure Scored where
  content : String
  similarity_score : ℚ
  deriving DecidableEq, Repr

/-- The filtering part of `ChatService.get_relevant_context` (the lines
after the `search_similar_chunks` call): primary threshold `0.4`; if
fewer than `2` pass, additionally admit, in order, candidates above `0.3`
not already present; finally return the first `max_chunks`. -/
def getRelevantContextFilter (initialResults : List Scored) (maxChunks : Nat) :
    List Scored :=
  (if (initialResults.filter (fun c => decide ((2 : ℚ)/5 < c.similarity_score))).length < 2 then
    initialResults.foldl
      (fun acc c => if (3 : ℚ)/10 < c.similarity_score ∧ c ∉ acc then acc ++ [c] else acc)
      (initialResults.filter (fun c => decide ((2 : ℚ)/5 < c.similarity_score)))
  else initialResults.filter (fun c => decide ((2 : ℚ)/5 < c.similarity_score))).take maxChunks

/-! ## `background_processor.py` -/

/-- `ProcessStatus`. -/
inductive ProcessStatus where
  | queued
  | processing
  | completed
  | failed
  deriving DecidableEq, Repr

/-- `ProcessInfo`, restricted to the fields the claims are about
(identity fields `process_id`/`post_id` and `created_at` are elided;
timestamps are abstract ticks). -/
structure ProcessInfo where
  status : ProcessStatus
  progress : ℚ
  message : String
  error_message : Option String
  started_at : Option Int
  completed_at : Option Int
  deriving DecidableEq, Repr

/-- The `doc_info` dict a queued item carries. -/
structure DocInfo where
  post_id : Int
  course_id : Int
  doc_name : String
  post_name : String
  subject : String
  deriving DecidableEq, Repr

/-- The outcomes of a job's external interactions, injected per job:
`parseResult` is `process_document`'s outcome (`some text` on success —
`_process_document` only uses `parsed_content`; `none` plus `parseError`
when it returns `success: False`); `llmSummaryOk`/`llmSummary` the
summarization call inside `generate_document_summary`; `providerOk` the
embedding call and `commitOk` the chunk-batch commit inside
`add_document_chunks`; `summaryCommitOk` the summary commit. -/
structure StageEnv where
  parseResult : Option String
  parseError : String
  llmSummaryOk : Bool
  llmSummary : String
  providerOk : Bool
  commitOk : Bool
  summaryCommitOk : Bool
  deriving Repr

/-- `DocumentProcessor.generate_document_summary`: any failure of the
summarization call is caught and replaced by a fallback preview string,
so this stage never raises; a falsy successful response becomes a fixed
failure message, a truthy one is stripped. -/
def generateDocumentSummary (env : StageEnv) (content : List Char)
    (doc_name post_name : String) : String :=
  if env.llmSummaryOk then
    if env.llmSummary = "" then "Summary generation failed for " ++ doc_name
    else String.mk (pyStrip env.llmSummary.toList)
  else
    "Document: " ++ doc_name ++ " (Post: " ++ post_name ++ "). Content preview: "
      ++ String.mk (content.take 500) ++ "..."

/-- The chunking stage: `chunk_text` with its default parameters
`600`/`150`.  By `chunkLoop_terminates` below, fuel `len(text) + 1`
always suffices for these defaults, so the `getD` fallback is never
taken. -/
def chunkText600 (text : List Char) : List (List Char) :=
  (chunkTextFuel text 600 150 (text.length + 1)).getD []

/-- The chunk list `_process_document` passes to the vector store
(step 3 of the pipeline). -/
def pipelineChunks (parsed : String) : List String :=
  (chunkText600 parsed.toList).map String.mk

/-- The metadata list `_process_document` builds (step 4): note that the
dicts carry no `subject` and no `page_number` key, so enhancement later
sees `subject = ''` and `page_number = None`. -/
def pipelineMetas (doc : DocInfo) (parsed : String) : List ChunkMeta :=
  (List.range (pipelineChunks parsed).length).map (fun i =>
    { post_id := doc.post_id, course_id := doc.course_id,
      doc_name := doc.doc_name, post_name := doc.post_name,
      subject := "", page_number := none, chunk_index := (i : Int),
      total_chunks := ((pipelineChunks parsed).length : Int) : ChunkMeta })

/-- `BackgroundProcessor._process_document`: the per-job pipeline under
its single `except` that marks the job `Failed`.  `t` is the clock tick
used for `datetime.now()`.  Returns the job's final `ProcessInfo` and
the post-job store/summary/cache states.  Only the parse stage can
raise: a `success: False` parse result is re-raised as
`Exception(f"Failed to process document: {error}")` and caught;
`generate_document_summary` never raises (fallback string), and the
`Bool` results of `add_document_chunks` and `store_document_summary`
are discarded, as in the source. -/
def processDocument (provider : String → List ℚ) (env : StageEnv) (doc : DocInfo)
    (st : RedisState) (db : List ChunkRow) (sums : List SummaryRow) (t : Int) :
    ProcessInfo × List ChunkRow × List SummaryRow × RedisState :=
  match env.parseResult with
  | none =>
    ({ status := .failed, progress := 15,
       message := "Processing failed: Failed to process document: " ++ env.parseError,
       error_message := some ("Failed to process document: " ++ env.parseError),
       started_at := some t, completed_at := some t }, db, sums, st)
  | some parsed =>
    ({ status := .completed, progress := 100,
       message := "Successfully processed "
         ++ toString (pipelineChunks parsed).length ++ " chunks",
       error_message := none, started_at := some t, completed_at := some t },
     (addDocumentChunks provider env.providerOk env.commitOk st db
        (pipelineChunks parsed) (pipelineMetas doc parsed)).2.1,
     (storeDocumentSummary sums env.summaryCommitOk doc.post_id doc.course_id
        doc.doc_name doc.post_name
        (generateDocumentSummary env parsed.toList doc.doc_name doc.post_name)).2,
     invalidateCourseCache
       (addDocumentChunks provider env.providerOk env.commitOk st db
          (pipelineChunks parsed) (pipelineMetas doc parsed)).2.2
       doc.course_id)

/-- The consumer `_process_queue`, draining the queued jobs in order:
each drained item runs `_process_document`, whose catch-all turns any
stage failure into a `Failed` job, and the loop's own catch-all keeps
draining, so the consumer processes every queued item.  Returns the
final `ProcessInfo` of every drained job, in order, threading the
store/summary/cache states through. -/
def consumeQueue (provider : String → List ℚ) :
    List (StageEnv × DocInfo) → RedisState → List ChunkRow → List SummaryRow → Int →
    List ProcessInfo
  | [], _, _, _, _ => []
  | (env, doc) :: rest, st, db, sums, t =>
    (processDocument provider env doc st db sums t).1 ::
      consumeQueue provider rest
        (processDocument provider env doc st db sums t).2.2.2
        (processDocument provider env doc st db sums t).2.1
        (processDocument provider env doc st db sums t).2.2.1 (t + 1)

/-! ## Concrete sample data for witnesses and counterexamples -/

/-- A deterministic sample embedding provider. -/
def sampleProvider : String → List ℚ := fun _ => [1]

/-- A sample distance operator. -/
def sampleDist : List ℚ → List ℚ → ℚ := fun _ _ => 0

/-- An available Redis with empty caches. -/
def sampleRedis : RedisState := ⟨true, [], []⟩

/-- Sample chunk metadata for post 7 in course 3. -/
def sampleMeta : ChunkMeta := ⟨7, 3, "d.pdf", "p", "Math", none, 0, 1⟩

/-- A search-cache key for a post-scoped query (`cache_id = post_id = 7`). -/
def sampleKey : SearchKey := ("q", 5, 7)

/-- A cached search result predating a mutation. -/
def staleHit : SearchHit := ⟨"old", 7, 3, "d", "p", 0, 1, none, 1⟩

/-- An available Redis holding the stale post-scoped search entry. -/
def sampleRedisStale : RedisState := ⟨true, [], [(sampleKey, [staleHit])]⟩

/-- A sample queued document for post 7 in course 3. -/
def sampleDoc : DocInfo := ⟨7, 3, "d.pdf", "p", "Math"⟩

/-- A job whose parse succeeds but whose embed+persist stage fails (the
embedding provider raises inside `add_document_chunks`). -/
def envPersistFail : StageEnv := ⟨some "Hello world", "", true, "s", false, true, true⟩

/-- A job whose source fetch/parse stage fails. -/
def envParseFail : StageEnv := ⟨none, "S3 download failed", true, "s", true, true, true⟩

/-- A candidate scoring 0.35: above 0.3, not above 0.4. -/
def scoredA : Scored := ⟨"A", 7/20⟩

/-- A candidate scoring 0.32: above 0.3, not above 0.4. -/
def scoredB : Scored := ⟨"B", 8/25⟩

/-- A candidate list where no score exceeds 0.4 and exactly two scores
exceed 0.3. -/
def sampleCandidates : List Scored := [⟨"low", 1/10⟩, scoredA, scoredB]

/-! ### Bounds on one loop iteration -/

theorem pyIdx_le (n : Nat) (i : Int) : pyIdx n i ≤ n := by
  unfold pyIdx
  split <;> omega

theorem pyRfindDot_lt_length (s : List Char) (a b : Int) :
    pyRfindDot s a b < (s.length : Int) := by
  unfold pyRfindDot
  cases h : (dotPositions s a b).getLast? with
  | none =>
    show (-1 : Int) < (s.length : Int)
    omega
  | some j =>
    have hj : j ∈ dotPositions s a b := by
      obtain ⟨hne, hlast⟩ :=
        List.mem_getLast?_eq_getLast (l := dotPositions s a b) (x := j) (by rw [h]; rfl)
      rw [hlast]
      exact List.getLast_mem hne
    have := List.mem_range.mp (List.mem_of_mem_filter hj)
    show (j : Int) < (s.length : Int)
    omega

/-- The computed window end never exceeds both the hard boundary
`start + chunkSize` and the text length. -/
theorem chunkEnd_le (text : List Char) (chunkSize start : Int) :
    chunkEnd text chunkSize start ≤ max (start + chunkSize) (text.length : Int) := by
  unfold chunkEnd
  split
  · split
    · have := pyRfindDot_lt_length text start (start + chunkSize)
      omega
    · omega
  · omega

/-- The computed window end is at least `start + chunkSize - 98`: the
sentence-boundary cut only fires when `sentence_end > start + chunk_size
- 100`, so it can pull the end back by at most 98 characters. -/
theorem chunkEnd_ge (text : List Char) (chunkSize start : Int) :
    start + chunkSize - 98 ≤ chunkEnd text chunkSize start := by
  unfold chunkEnd
  split
  · split
    · omega
    · omega
  · omega

/-! ### Non-termination of the loop -/

/-- When `chunkSize ≤ overlap` (and `chunkSize` is positive), `start`
never moves past the end of the text, so the loop never exits, whatever
the fuel. -/
theorem chunkLoop_stuck (text : List Char) (chunkSize overlap : Int)
    (hcs : 0 < chunkSize) (hov : chunkSize ≤ overlap) :
    ∀ (fuel : Nat) (start : Int) (acc : List (List Char)),
      start < (text.length : Int) →
      chunkLoop text chunkSize overlap start acc fuel = none := by
  intro fuel
  induction fuel with
  | zero => intro start acc _; rfl
  | succ n ih =>
    intro start acc h
    have hle := chunkEnd_le text chunkSize start
    simp only [chunkLoop, if_pos h]
    exact ih _ _ (by omega)

/-- If some reachable loop state maps back to itself (`start` does not
move), the loop never terminates from that state. -/
theorem chunkLoop_fixed (text : List Char) (chunkSize overlap start : Int)
    (hfix : chunkNextStart text chunkSize overlap start = start)
    (h : start < (text.length : Int)) :
    ∀ (fuel : Nat) (acc : List (List Char)),
      chunkLoop text chunkSize overlap start acc fuel = none := by
  intro fuel
  induction fuel with
  | zero => intro acc; rfl
  | succ n ih =>
    intro acc
    simp only [chunkLoop, if_pos h]
    have he : chunkEnd text chunkSize start - overlap = start := hfix
    rw [he]
    exact ih _

/-! ### Termination of the loop for separated parameters -/

/-- With `overlap + 98 < chunkSize`, every iteration advances `start` by
at least one character, so fuel `len(text) + 1` always suffices. -/
theorem chunkLoop_terminates (text : List Char) (chunkSize overlap : Int)
    (h : overlap + 98 < chunkSize) :
    ∀ (fuel : Nat) (start : Int) (acc : List (List Char)),
      ((text.length : Int) - start).toNat < fuel →
      ∃ r, chunkLoop text chunkSize overlap start acc fuel = some r := by
  intro fuel
  induction fuel with
  | zero => intro start acc hf; omega
  | succ n ih =>
    intro start acc hf
    by_cases hs : start < (text.length : Int)
    · have hge := chunkEnd_ge text chunkSize start
      simp only [chunkLoop, if_pos hs]
      exact ih _ _ (by omega)
    · exact ⟨acc, by simp [chunkLoop, hs]⟩

/-- `chunk_text` terminates whenever the overlap is at least 99
characters smaller than the chunk size (in particular for the source's
defaults `600`/`150`), with fuel `len(text) + 1`. -/
theorem chunkTextFuel_terminates (text : List Char) (chunkSize overlap : Int)
    (h : overlap + 98 < chunkSize) :
    ∃ r, chunkTextFuel text chunkSize overlap (text.length + 1) = some r := by
  unfold chunkTextFuel
  split
  · exact ⟨[text], rfl⟩
  · exact chunkLoop_terminates text chunkSize overlap h _ 0 [] (by omega)

/-! ### Helper lemmas for the cache and store layer -/

theorem cacheEmbedding_searchCache (st : RedisState) (t : String) (v : List ℚ) :
    (cacheEmbedding st t v).searchCache = st.searchCache := by
  unfold cacheEmbedding
  split <;> rfl

theorem foldl_cacheEmbedding_searchCache (provider : String → List ℚ) :
    ∀ (l : List String) (s : RedisState),
      (l.foldl (fun s t => cacheEmbedding s t (provider t)) s).searchCache
        = s.searchCache := by
  intro l
  induction l with
  | nil => intro s; rfl
  | cons x xs ih =>
    intro s
    simp only [List.foldl]
    rw [ih, cacheEmbedding_searchCache]

/-- `generate_embeddings` touches only the embedding cache, never the
search-result cache. -/
theorem genEmbeddings_searchCache (provider : String → List ℚ) (providerOk : Bool)
    (st : RedisState) (texts : List String) :
    ((genEmbeddings provider providerOk st texts).2.1).searchCache = st.searchCache := by
  unfold genEmbeddings
  split
  · rfl
  · split
    · exact foldl_cacheEmbedding_searchCache provider _ st
    · rfl

/-- A failed `add_document_chunks` call leaves the persisted rows
exactly as they were (the rollback). -/
theorem addDocumentChunks_rollback (provider : String → List ℚ)
    (providerOk commitOk : Bool) (st : RedisState) (db : List ChunkRow)
    (chunks : List String) (metas : List ChunkMeta)
    (h : (addDocumentChunks provider providerOk commitOk st db chunks metas).1 = false) :
    (addDocumentChunks provider providerOk commitOk st db chunks metas).2.1 = db := by
  unfold addDocumentChunks at h ⊢
  rcases hg : genEmbeddings provider providerOk st
      ((chunks.zip metas).map (fun cm => enhanceChunkForEmbedding cm.1 cm.2)) with ⟨og, st', k⟩
  rw [hg] at h ⊢
  cases og with
  | none => rfl
  | some embs => cases commitOk <;> simp_all

/-- `add_document_chunks` never touches the search-result cache. -/
theorem addDocumentChunks_searchCache (provider : String → List ℚ)
    (providerOk commitOk : Bool) (st : RedisState) (db : List ChunkRow)
    (chunks : List String) (metas : List ChunkMeta) :
    ((addDocumentChunks provider providerOk commitOk st db chunks metas).2.2).searchCache
      = st.searchCache := by
  unfold addDocumentChunks
  have hsc := genEmbeddings_searchCache provider providerOk st
      ((chunks.zip metas).map (fun cm => enhanceChunkForEmbedding cm.1 cm.2))
  rcases hg : genEmbeddings provider providerOk st
      ((chunks.zip metas).map (fun cm => enhanceChunkForEmbedding cm.1 cm.2)) with ⟨og, st', k⟩
  rw [hg] at hsc ⊢
  cases og with
  | none => exact hsc
  | some embs => cases commitOk <;> simpa using hsc

/-- The post-cache-check body of a search returns `[]` whenever the
query embedding or the store query raises. -/
theorem searchUncachedRun_failure (provider : String → List ℚ)
    (dist : List ℚ → List ℚ → ℚ) (providerOk dbOk : Bool) (st : RedisState)
    (db : List ChunkRow) (eText : String) (key : SearchKey)
    (course_id post_id : Option Int) (n_results : Nat)
    (hfail : (genEmbeddings provider providerOk st [eText]).1 = none ∨ dbOk = false) :
    (searchUncachedRun provider dist providerOk dbOk st db eText key
        course_id post_id n_results).1 = [] := by
  unfold searchUncachedRun
  rcases hg : genEmbeddings provider providerOk st [eText] with ⟨og, st', k⟩
  rw [hg] at hfail
  cases og with
  | none => rfl
  | some qE =>
    rcases hfail with hf | hf
    · simp at hf
    · subst hf
      simp

/-! ### Helper lemmas for the consumer loop -/

/-- Every processed job ends in a terminal state. -/
theorem processDocument_terminal (provider : String → List ℚ) (env : StageEnv)
    (doc : DocInfo) (st : RedisState) (db : List ChunkRow) (sums : List SummaryRow)
    (t : Int) :
    (processDocument provider env doc st db sums t).1.status = ProcessStatus.completed
      ∨ (processDocument provider env doc st db sums t).1.status = ProcessStatus.failed := by
  unfold processDocument
  cases env.parseResult with
  | none => right; rfl
  | some parsed => left; rfl

/-- The consumer drains every queued item: one result per submission. -/
theorem consumeQueue_length (provider : String → List ℚ) :
    ∀ (jobs : List (StageEnv × DocInfo)) (st : RedisState) (db : List ChunkRow)
      (sums : List SummaryRow) (t : Int),
      (consumeQueue provider jobs st db sums t).length = jobs.length := by
  intro jobs
  induction jobs with
  | nil => intro st db sums t; rfl
  | cons j rest ih =>
    intro st db sums t
    obtain ⟨env, doc⟩ := j
    simp only [consumeQueue, List.length_cons]
    rw [ih]

/-- Every drained job's final state is terminal. -/
theorem consumeQueue_terminal (provider : String → List ℚ) :
    ∀ (jobs : List (StageEnv × DocInfo)) (st : RedisState) (db : List ChunkRow)
      (sums : List SummaryRow) (t : Int),
      ∀ info ∈ consumeQueue provider jobs st db sums t,
        info.status = ProcessStatus.completed ∨ info.status = ProcessStatus.failed := by
  intro jobs
  induction jobs with
  | nil => intro st db sums t info h; simp [consumeQueue] at h
  | cons j rest ih =>
    intro st db sums t info h
    obtain ⟨env, doc⟩ := j
    simp only [consumeQueue, List.mem_cons] at h
    rcases h with h | h
    · subst h; exact processDocument_terminal provider env doc st db sums t
    · exact ih _ _ _ _ info h

/-! ### Helper lemma for the two-tier filter -/

/-- The fallback pass of `get_relevant_context` appends, in order and
deduplicated, exactly the candidates above the secondary threshold, as
long as none of them is already in the accumulator. -/
theorem relevanceFold_append :
    ∀ (l : List Scored) (acc : List Scored),
      (∀ x ∈ l.filter (fun c => decide ((3 : ℚ)/10 < c.similarity_score)), x ∉ acc) →
      (l.filter (fun c => decide ((3 : ℚ)/10 < c.similarity_score))).Nodup →
      l.foldl (fun acc c =>
          if (3 : ℚ)/10 < c.similarity_score ∧ c ∉ acc then acc ++ [c] else acc) acc
        = acc ++ l.filter (fun c => decide ((3 : ℚ)/10 < c.similarity_score)) := by
  intro l
  induction l with
  | nil => intro acc _ _; simp
  | cons c l ih =>
    intro acc hnotin hnd
    by_cases hc : (3 : ℚ)/10 < c.similarity_score
    · have hfc : (c :: l).filter (fun c => decide ((3 : ℚ)/10 < c.similarity_score))
          = c :: l.filter (fun c => decide ((3 : ℚ)/10 < c.similarity_score)) := by
        simp [List.filter_cons, hc]
      rw [hfc] at hnotin hnd
      have hcnotin : c ∉ acc := hnotin c (List.mem_cons_self c _)
      simp only [List.foldl_cons]
      rw [if_pos ⟨hc, hcnotin⟩]
      rw [ih (acc ++ [c]) ?_ (List.Nodup.of_cons hnd)]
      · rw [hfc, List.append_assoc, List.singleton_append]
      · intro x hx
        simp only [List.mem_append, List.mem_singleton]
        push_neg
        refine ⟨hnotin x (List.mem_cons_of_mem c hx), ?_⟩
        intro hxc
        subst hxc
        exact (List.nodup_cons.mp hnd).1 hx
    · have hfc : (c :: l).filter (fun c => decide ((3 : ℚ)/10 < c.similarity_score))
          = l.filter (fun c => decide ((3 : ℚ)/10 < c.similarity_score)) := by
        simp [List.filter_cons, hc]
      rw [hfc] at hnotin hnd
      simp only [List.foldl_cons]
      rw [if_neg (by tauto)]
      rw [ih acc hnotin hnd, hfc]

/-! ## The claims -/

/-- C3 (counterexample): with `overlap = 5 ≥ chunkSize = 2`, `chunk_text`
does not fail with any `ValidationError`: on a short text it returns the
single-chunk result as if nothing were wrong, and on a longer text its
loop never terminates (here it is still unfinished after 100
iterations), so the claim "fails with a ValidationError (and never
loops)" is false on both counts. -/
theorem C3_no_validation_error_cex :
    chunkTextFuel "ab".toList 2 5 7 = some ["ab".toList]
    ∧ chunkTextFuel "abcdefgh".toList 2 5 100 = none := by
  constructor
  · decide
  · show chunkTextFuel "abcdefgh".toList 2 5 100 = none
    unfold chunkTextFuel
    rw [if_neg (by decide)]
    exact chunkLoop_stuck "abcdefgh".toList 2 5 (by decide) (by decide) 100 0 [] (by decide)

/-- C3 (amended): `chunk_text` performs no validation of
`overlap >= chunk_size`.  When `len(text) <= chunk_size` it returns
`[text]` regardless of the overlap; when `len(text) > chunk_size` and
`overlap >= chunk_size > 0`, the window start never advances past the
end of the text and the loop never terminates, whatever the fuel. -/
theorem C3_overlap_ge_chunk_size_loops_forever (text : List Char)
    (chunkSize overlap : Int) (fuel : Nat)
    (h1 : 0 < chunkSize) (h2 : chunkSize ≤ overlap)
    (h3 : chunkSize < (text.length : Int)) :
    chunkTextFuel text chunkSize overlap fuel = none := by
  unfold chunkTextFuel
  rw [if_neg (by omega)]
  exact chunkLoop_stuck text chunkSize overlap h1 h2 fuel 0 [] (by omega)

/-- C3 witness: a concrete run of the non-terminating regime. -/
theorem C3_overlap_ge_chunk_size_loops_forever_witness :
    chunkTextFuel "abcdefghij".toList 3 4 50 = none :=
  C3_overlap_ge_chunk_size_loops_forever "abcdefghij".toList 3 4 50
    (by decide) (by decide) (by decide)

/-- C4 (counterexample): with `chunkSize = 10` and `overlap = 5 <
chunkSize`, on a text whose only period sits at offset 4, the
sentence-boundary cut moves the window end back to offset 5 and the next
start is `5 - 5 = 0`: the window start does not advance on this
iteration, and the chunk operation never terminates (still unfinished
after 300 iterations), refuting termination for all `overlap <
chunkSize`. -/
theorem C4_sentence_cut_no_advance_cex :
    (5 : Int) < 10
    ∧ chunkNextStart "abcd.efghijklmnopqrs".toList 10 5 0 = 0
    ∧ chunkTextFuel "abcd.efghijklmnopqrs".toList 10 5 300 = none := by
  refine ⟨by decide, by decide, ?_⟩
  unfold chunkTextFuel
  rw [if_neg (by decide)]
  exact chunkLoop_fixed "abcd.efghijklmnopqrs".toList 10 5 0 (by decide) (by decide) 300 []

/-- C4 (amended): the chunk operation terminates — with the window start
strictly advancing on every iteration, including sentence-boundary
iterations — provided `overlap + 98 < chunkSize` (the sentence cut can
pull the window end back by at most 98 characters); the source's default
parameters `600`/`150` satisfy this.  Fuel `len(text) + 1` then always
suffices. -/
theorem C4_chunk_termination_with_separated_overlap (text : List Char)
    (chunkSize overlap : Int) (h : overlap + 98 < chunkSize) :
    (∀ start : Int, start < chunkNextStart text chunkSize overlap start)
    ∧ ∃ r, chunkTextFuel text chunkSize overlap (text.length + 1) = some r := by
  constructor
  · intro start
    have := chunkEnd_ge text chunkSize start
    unfold chunkNextStart
    omega
  · exact chunkTextFuel_terminates text chunkSize overlap h

/-- C4 witness: the default parameters terminate on a concrete text. -/
theorem C4_chunk_termination_with_separated_overlap_witness :
    ∃ r, chunkTextFuel "hi".toList 600 150 ("hi".toList.length + 1) = some r :=
  (C4_chunk_termination_with_separated_overlap "hi".toList 600 150 (by decide)).2

/-- C5 (counterexample): for a short text `chunk_text` returns the text
verbatim, not trimmed (`return [text]` has no `.strip()`), and for the
empty text it returns the one-element sequence `[""]`, not the empty
sequence. -/
theorem C5_untrimmed_and_empty_cex :
    chunkTextFuel " a ".toList 600 150 1 = some [" a ".toList]
    ∧ " a ".toList ≠ "a".toList
    ∧ chunkTextFuel "".toList 600 150 1 = some ["".toList]
    ∧ ["".toList] ≠ ([] : List (List Char)) := by
  refine ⟨by decide, by decide, by decide, by decide⟩

/-- C5 (amended): for every text with `len(text) <= chunkSize`,
`chunk_text` returns exactly one chunk equal to the input text verbatim
(no trimming); in particular the empty text yields the single-element
sequence containing the empty chunk. -/
theorem C5_short_text_single_untrimmed_chunk (text : List Char)
    (chunkSize overlap : Int) (fuel : Nat)
    (h : (text.length : Int) ≤ chunkSize) :
    chunkTextFuel text chunkSize overlap fuel = some [text] := by
  unfold chunkTextFuel
  rw [if_pos h]

/-- C5 witness: a concrete short text comes back verbatim. -/
theorem C5_short_text_single_untrimmed_chunk_witness :
    chunkTextFuel " hi ".toList 600 150 1 = some [" hi ".toList] :=
  C5_short_text_single_untrimmed_chunk " hi ".toList 600 150 1 (by decide)

/-- C10: the three count helpers catch every store failure and return 0
(`queryOk = false` is the raising store), so a failed count is
indistinguishable from a successful count over an empty scope. -/
theorem C10_counts_return_zero_on_failure :
    ∀ (db : List ChunkRow) (cid pid : Int),
      getCourseDocumentCount db false cid = 0
      ∧ getPostDocumentCount db false pid = 0
      ∧ getTotalChunksCount db false = 0
      ∧ getCourseDocumentCount [] true cid = 0
      ∧ getPostDocumentCount [] true pid = 0
      ∧ getTotalChunksCount [] true = 0 := by
  intro db cid pid
  exact ⟨rfl, rfl, rfl, rfl, rfl, rfl⟩

/-- C6: whenever `add_document_chunks` fails (embedding failure or
commit failure — its result is `False`), the persisted rows are exactly
the rows before the call, so every scoped count is unchanged and no
partial chunk set survives. -/
theorem C6_failed_add_leaves_store_unchanged (provider : String → List ℚ)
    (providerOk commitOk : Bool) (st : RedisState) (db : List ChunkRow)
    (chunks : List String) (metas : List ChunkMeta)
    (h : (addDocumentChunks provider providerOk commitOk st db chunks metas).1 = false) :
    (addDocumentChunks provider providerOk commitOk st db chunks metas).2.1 = db
    ∧ ∀ scopeId : Int,
        getCourseDocumentCount
            (addDocumentChunks provider providerOk commitOk st db chunks metas).2.1
            true scopeId
          = getCourseDocumentCount db true scopeId
        ∧ getPostDocumentCount
            (addDocumentChunks provider providerOk commitOk st db chunks metas).2.1
            true scopeId
          = getPostDocumentCount db true scopeId
        ∧ getTotalChunksCount
            (addDocumentChunks provider providerOk commitOk st db chunks metas).2.1 true
          = getTotalChunksCount db true := by
  have hdb := addDocumentChunks_rollback provider providerOk commitOk st db chunks metas h
  refine ⟨hdb, fun scopeId => ?_⟩
  rw [hdb]
  exact ⟨rfl, rfl, rfl⟩

/-- C6 witness: a concrete failing add (provider outage) leaves an empty
store empty. -/
theorem C6_failed_add_leaves_store_unchanged_witness :
    (addDocumentChunks sampleProvider false true sampleRedis [] ["c"] [sampleMeta]).2.1
      = ([] : List ChunkRow) :=
  (C6_failed_add_leaves_store_unchanged sampleProvider false true sampleRedis []
    ["c"] [sampleMeta] (by decide)).1

/-- C2 (counterexample): a search whose query-embedding call raises is
caught by `search_similar_chunks`'s catch-all and returns the plain
empty list (no error reaches the caller), and a successful search over
an empty store returns the same empty list — the two outcomes are
indistinguishable, so the claim that failures propagate is false. -/
theorem C2_search_failure_silent_empty_cex :
    searchSimilarChunks sampleProvider sampleDist false true sampleRedis
        [] "q" none (some 7) 5 none none = ([], sampleRedis) := by
  decide

/-- C2 (amended): `search_similar_chunks` catches any failure of the
embedding call or of the store query and returns the empty list instead
of propagating an error, so callers cannot distinguish "no relevant
passages" from "retrieval failed". -/
theorem C2_search_failure_returns_empty_list (provider : String → List ℚ)
    (dist : List ℚ → List ℚ → ℚ) (providerOk dbOk : Bool) (st : RedisState)
    (db : List ChunkRow) (query : String) (course_id post_id : Option Int)
    (n_results : Nat) (subject topic : Option String)
    (hmiss : truthySearchHit st
      (searchQueryText query subject topic, n_results,
        searchCacheId course_id post_id) = false)
    (hfail : (genEmbeddings provider providerOk st
        [searchQueryText query subject topic]).1 = none ∨ dbOk = false) :
    (searchSimilarChunks provider dist providerOk dbOk st db query
        course_id post_id n_results subject topic).1 = [] := by
  unfold searchSimilarChunks
  unfold truthySearchHit at hmiss
  rcases hc : getCachedSimilaritySearch st
      (searchQueryText query subject topic, n_results,
        searchCacheId course_id post_id) with _ | cached
  · exact searchUncachedRun_failure provider dist providerOk dbOk st db _ _
      course_id post_id n_results hfail
  · rw [hc] at hmiss
    have hemp : cached.isEmpty = true := by simpa using hmiss
    show (if cached.isEmpty = true then
        searchUncachedRun provider dist providerOk dbOk st db
          (searchQueryText query subject topic)
          (searchQueryText query subject topic, n_results,
            searchCacheId course_id post_id)
          course_id post_id n_results
      else (cached, st)).1 = []
    rw [if_pos hemp]
    exact searchUncachedRun_failure provider dist providerOk dbOk st db _ _
      course_id post_id n_results hfail

/-- C2 witness: the failing concrete search from the counterexample,
through the amended theorem. -/
theorem C2_search_failure_returns_empty_list_witness :
    (searchSimilarChunks sampleProvider sampleDist false true sampleRedis
        [] "pythagorean theorem" none (some 7) 5 none none).1 = [] :=
  C2_search_failure_returns_empty_list sampleProvider sampleDist false true
    sampleRedis [] "pythagorean theorem" none (some 7) 5 none none
    (by decide) (Or.inl (by decide))

/-- C8 (counterexample): a successful `add_document_chunks` for post 7
(course 3) leaves the stale post-scoped cached search entry in place,
and a later identical search within the TTL returns that stale cached
result instead of anything reflecting the mutation. -/
theorem C8_stale_post_cache_cex :
    (addDocumentChunks sampleProvider true true sampleRedisStale []
        ["new content"] [sampleMeta]).1 = true
    ∧ getCachedSimilaritySearch
        (addDocumentChunks sampleProvider true true sampleRedisStale []
          ["new content"] [sampleMeta]).2.2 sampleKey = some [staleHit]
    ∧ (searchSimilarChunks sampleProvider sampleDist true true
        (addDocumentChunks sampleProvider true true sampleRedisStale []
          ["new content"] [sampleMeta]).2.2
        (addDocumentChunks sampleProvider true true sampleRedisStale []
          ["new content"] [sampleMeta]).2.1
        "q" none (some 7) 5 none none).1 = [staleHit] := by
  refine ⟨by decide, by decide, by decide⟩

/-- C8 (amended): `add_document_chunks` performs no search-cache
invalidation at all — the cached search results after any add call are
exactly those before it; cache invalidation exists only as
`invalidate_course_cache`, which (with Redis available) removes exactly
the search entries cached under the course id, so post-scoped cached
entries survive every invalidation and stale results can be served
within the TTL. -/
theorem C8_add_no_invalidation_course_only (provider : String → List ℚ)
    (providerOk commitOk : Bool) (st : RedisState) (db : List ChunkRow)
    (chunks : List String) (metas : List ChunkMeta) (cid : Int)
    (hen : st.enabled = true) :
    ((addDocumentChunks provider providerOk commitOk st db chunks metas).2.2).searchCache
      = st.searchCache
    ∧ (invalidateCourseCache st cid).searchCache
      = st.searchCache.filter (fun e => e.1.2.2 != cid) := by
  constructor
  · exact addDocumentChunks_searchCache provider providerOk commitOk st db chunks metas
  · unfold invalidateCourseCache
    rw [hen]
    rfl

/-- C8 witness: concrete add over the stale-cache state, through the
amended theorem. -/
theorem C8_add_no_invalidation_course_only_witness :
    ((addDocumentChunks sampleProvider true true sampleRedisStale []
        ["w"] [sampleMeta]).2.2).searchCache = sampleRedisStale.searchCache :=
  (C8_add_no_invalidation_course_only sampleProvider true true sampleRedisStale []
    ["w"] [sampleMeta] 3 rfl).1

/-- C7: two embedding calls for the same uncached text with Redis
available issue exactly one external provider call in total, and both
return the identical vector: the first call generates and caches it, the
second is served from the cache. -/
theorem C7_second_embed_call_cache_hit (provider : String → List ℚ)
    (st : RedisState) (t : String) (hen : st.enabled = true)
    (hmiss : embCacheHit st t = none) (hne : provider t ≠ []) :
    (genEmbeddings provider true st [t]).2.2
      + (genEmbeddings provider true (genEmbeddings provider true st [t]).2.1 [t]).2.2 = 1
    ∧ (genEmbeddings provider true st [t]).1 = some [provider t]
    ∧ (genEmbeddings provider true (genEmbeddings provider true st [t]).2.1 [t]).1
        = some [provider t] := by
  have hne' : (provider t).isEmpty = false := by
    cases hp : provider t with
    | nil => exact absurd hp hne
    | cons a l => rfl
  have h1 : genEmbeddings provider true st [t]
      = (some [provider t], cacheEmbedding st t (provider t), 1) := by
    simp [genEmbeddings, hmiss]
  have hhit : embCacheHit (cacheEmbedding st t (provider t)) t = some (provider t) := by
    unfold embCacheHit getCachedEmbedding cacheEmbedding
    simp [hen, List.lookup, hne']
  have h2 : genEmbeddings provider true (cacheEmbedding st t (provider t)) [t]
      = (some [provider t], cacheEmbedding st t (provider t), 0) := by
    simp [genEmbeddings, hhit]
  rw [h1]
  refine ⟨?_, rfl, ?_⟩
  · show 1 + (genEmbeddings provider true (cacheEmbedding st t (provider t)) [t]).2.2 = 1
    rw [h2]
    rfl
  · show (genEmbeddings provider true (cacheEmbedding st t (provider t)) [t]).1
      = some [provider t]
    rw [h2]

/-- C7 witness: `embed(["hello"])` twice on a cold available cache. -/
theorem C7_second_embed_call_cache_hit_witness :
    (genEmbeddings sampleProvider true sampleRedis ["hello"]).2.2
      + (genEmbeddings sampleProvider true
          (genEmbeddings sampleProvider true sampleRedis ["hello"]).2.1 ["hello"]).2.2 = 1
    ∧ (genEmbeddings sampleProvider true sampleRedis ["hello"]).1
        = some [sampleProvider "hello"]
    ∧ (genEmbeddings sampleProvider true
        (genEmbeddings sampleProvider true sampleRedis ["hello"]).2.1 ["hello"]).1
        = some [sampleProvider "hello"] :=
  C7_second_embed_call_cache_hit sampleProvider sampleRedis "hello"
    rfl (by decide) (by decide)

/-- C9: when every candidate scores at most 0.4 and exactly two distinct
candidates score above 0.3, the two-tier filter of
`get_relevant_context` returns exactly those two candidates (in order),
for any requested maximum of at least 2. -/
theorem C9_two_tier_fallback_returns_two (initial : List Scored)
    (maxChunks : Nat) (a b : Scored)
    (hle : ∀ c ∈ initial, c.similarity_score ≤ 2/5)
    (h2 : initial.filter (fun c => decide ((3 : ℚ)/10 < c.similarity_score)) = [a, b])
    (hab : a ≠ b) (hmax : 2 ≤ maxChunks) :
    getRelevantContextFilter initial maxChunks = [a, b] := by
  have h4 : initial.filter (fun c => decide ((2 : ℚ)/5 < c.similarity_score)) = [] := by
    rw [List.filter_eq_nil_iff]
    intro c hc
    simp only [decide_eq_true_eq]
    exact not_lt.mpr (hle c hc)
  unfold getRelevantContextFilter
  simp only [h4, List.length_nil]
  rw [if_pos (by omega)]
  rw [relevanceFold_append initial [] (by simp) (by rw [h2]; simp [hab])]
  rw [h2, List.nil_append]
  exact List.take_of_length_le (by simpa using hmax)

/-- C9 witness: three candidates scoring 0.1, 0.35, 0.32 with `k = 5`. -/
theorem C9_two_tier_fallback_returns_two_witness :
    getRelevantContextFilter sampleCandidates 5 = [scoredA, scoredB] :=
  C9_two_tier_fallback_returns_two sampleCandidates 5 scoredA scoredB
    (by
      intro c hc
      simp only [sampleCandidates, List.mem_cons, List.mem_singleton,
        List.not_mem_nil, or_false] at hc
      rcases hc with h | h | h <;> subst h <;> simp [scoredA, scoredB] <;> norm_num)
    (by simp [sampleCandidates, List.filter, scoredA, scoredB]; norm_num)
    (by simp [scoredA, scoredB])
    (by omega)

/-- C1 (counterexample): a job whose embed+persist stage fails (the
provider raises inside `add_document_chunks`, which returns `False` —
third conjunct) is nonetheless marked `Completed`, because
`_process_document` discards that `False`; no rows were persisted.  This
refutes "if any pipeline stage fails, the job transitions to Failed". -/
theorem C1_persist_failure_completed_cex :
    (processDocument sampleProvider envPersistFail sampleDoc sampleRedis [] [] 0).1.status
      = ProcessStatus.completed
    ∧ (processDocument sampleProvider envPersistFail sampleDoc sampleRedis [] [] 0).2.1 = []
    ∧ (addDocumentChunks sampleProvider false true sampleRedis []
        (pipelineChunks "Hello world") (pipelineMetas sampleDoc "Hello world")).1 = false := by
  refine ⟨by decide, by decide, by decide⟩

/-- C1 (amended): only a fetch+parse failure marks a job `Failed` — then
with the non-empty recorded error message and a completion timestamp —
while the consumer drains every queued item to a terminal state
regardless (summarization failures fall back to a preview string, and
persistence/summary/cache failures are swallowed, see the
counterexample). -/
theorem C1_parse_failure_fails_job_consumer_continues
    (provider : String → List ℚ) (env : StageEnv) (doc : DocInfo)
    (st : RedisState) (db : List ChunkRow) (sums : List SummaryRow) (t : Int)
    (h : env.parseResult = none) :
    (processDocument provider env doc st db sums t).1.status = ProcessStatus.failed
    ∧ (processDocument provider env doc st db sums t).1.error_message
        = some ("Failed to process document: " ++ env.parseError)
    ∧ ("Failed to process document: " ++ env.parseError) ≠ ""
    ∧ (processDocument provider env doc st db sums t).1.completed_at = some t
    ∧ ∀ rest : List (StageEnv × DocInfo),
        (consumeQueue provider ((env, doc) :: rest) st db sums t).length = rest.length + 1
        ∧ ∀ info ∈ consumeQueue provider ((env, doc) :: rest) st db sums t,
            info.status = ProcessStatus.completed ∨ info.status = ProcessStatus.failed := by
  refine ⟨?_, ?_, ?_, ?_, ?_⟩
  · unfold processDocument; rw [h]
  · unfold processDocument; rw [h]
  · intro hq
    rw [String.ext_iff, String.data_append] at hq
    have h1 := List.append_eq_nil.mp hq
    have h2 : ("Failed to process document: " : String).data ≠ [] := by decide
    exact h2 h1.1
  · unfold processDocument; rw [h]
  · intro rest
    constructor
    · rw [consumeQueue_length]
      rfl
    · intro info hi
      exact consumeQueue_terminal provider _ _ _ _ _ info hi

/-- C1 witness: a concrete job with a failing source fetch ends
`Failed`. -/
theorem C1_parse_failure_fails_job_consumer_continues_witness :
    (processDocument sampleProvider envParseFail sampleDoc sampleRedis [] [] 0).1.status
      = ProcessStatus.failed :=
  (C1_parse_failure_fails_job_consumer_continues sampleProvider envParseFail
    sampleDoc sampleRedis [] [] 0 rfl).1

end StudysendRAG
